import Mathlib

/-!
# Verification of the resilient Tour-API client and stats aggregation layer

Shallow embedding of `src/lib/api/tour-api.ts`, `src/lib/api/stats-api.ts`,
`src/lib/constants/api.ts`, `src/lib/constants/tour-types.ts` and
`lib/utils/coordinates.ts` (a TypeScript/Next.js code base), together with
theorems settling the specification's claims about these modules.

Modelling conventions:
* JavaScript exceptions are `Except`/explicit `Thrown` values; a function that
  cannot throw has a plain (non-`Except`) result type.
* The upstream HTTP layer is abstracted as an *oracle* `Nat → FetchStep α`
  giving, for each attempt index, what `fetch` + `response.json()` produce for
  the URL of the call being modelled.
* JS numbers that are used as counts are `Nat`; coordinate arithmetic is `Rat`.
* `Array.prototype.sort` with comparator `(a, b) => b.count - a.count` is the
  stable descending-by-count sort, modelled with `List.mergeSort`
  (ECMAScript requires sort stability).
-/

namespace TourApi

/-! ## Data model (`lib/types/api.ts`)

The upstream envelope's `body.items.item` field is dynamically either a single
object or an array (`T | T[]`); `Items α` models that union.  A single
`Option` on `ResponseBody.items` models `response.body.items?.item` being
absent (either `items` missing or `item` missing). -/

inductive Items (α : Type) where
  | single (x : α)
  | arr (xs : List α)
deriving DecidableEq

structure ResponseHeader where
  resultCode : String
  resultMsg : String
deriving DecidableEq

structure ResponseBody (α : Type) where
  items : Option (Items α)
  numOfRows : Nat
  pageNo : Nat
  totalCount : Nat
deriving DecidableEq

structure TourApiResponse (α : Type) where
  header : ResponseHeader
  body : ResponseBody α
deriving DecidableEq

/-- `ApiResult` from `lib/types/api.ts`: `{success: true, data, totalCount?}`
or `{success: false, error, code?}`.  (`parseApiResponse` attaches a
`totalCount` on success; the stats functions return success without one.) -/
inductive ApiResult (α : Type) where
  | success (data : α) (totalCount : Option Nat)
  | failure (error : String) (code : Option String)
deriving DecidableEq

/-- `Array.isArray(items)` on the `T | T[]` union. -/
def Items.isArr {α : Type} : Items α → Bool
  | .single _ => false
  | .arr _ => true

/-- `Array.isArray(items) ? items : [items]` (the `itemArray` local). -/
def Items.toArr {α : Type} : Items α → List α
  | .single x => [x]
  | .arr xs => xs

/-! ## Response normalizer (`parseApiResponse`, tour-api.ts) -/

/-- The result-code → user message table of `parseApiResponse`:
`userMessage` starts as `resultMsg || "API 호출 중 오류가 발생했습니다."`
(JS `||`: the fallback is used when `resultMsg` is empty) and codes
"01".."05" override it. -/
def resultCodeMessage (errorCode resultMsg : String) : String :=
  if errorCode = "01" then "필수 파라미터가 누락되었습니다."
  else if errorCode = "02" then "잘못된 파라미터 값입니다."
  else if errorCode = "03" then "서비스키가 유효하지 않습니다."
  else if errorCode = "04" then "서비스키가 만료되었습니다."
  else if errorCode = "05" then "일일 호출 한도를 초과했습니다."
  else if resultMsg = "" then "API 호출 중 오류가 발생했습니다."
  else resultMsg

/-- `parseApiResponse` from tour-api.ts.  The returned `data` is
`itemArray.length === 1 && !Array.isArray(items) ? items : itemArray`,
kept verbatim (note that this returns `items` *unwrapped* whenever the
upstream sent a single object). -/
def parseApiResponse {α : Type} (r : TourApiResponse α) : ApiResult (Items α) :=
  if r.header.resultCode ≠ "0000" then
    .failure (resultCodeMessage r.header.resultCode r.header.resultMsg)
      (some r.header.resultCode)
  else
    match r.body.items with
    | none => .failure "조회된 데이터가 없습니다." none
    | some items =>
        let itemArray := items.toArr
        .success
          (if itemArray.length = 1 ∧ ¬ items.isArr then items else .arr itemArray)
          (some r.body.totalCount)

/-- Helper: on a `"0000"` envelope with `items` present, `parseApiResponse`
returns `items` unchanged (the wrap-then-maybe-unwrap ternary is the
identity). -/
theorem parseApiResponse_items_passthrough {α : Type} (r : TourApiResponse α)
    (its : Items α) (hc : r.header.resultCode = "0000")
    (hi : r.body.items = some its) :
    parseApiResponse r = .success its (some r.body.totalCount) := by
  unfold parseApiResponse
  rw [hc, hi]
  simp only [ne_eq, not_true_eq_false, if_false]
  cases its with
  | single x => simp [Items.toArr, Items.isArr]
  | arr xs => simp [Items.toArr, Items.isArr]

/-- C1 counterexample: normalizing a single-object `items` and the
pre-wrapped one-element array does **not** yield identical `ApiResult`
contents: the former's `data` is the bare object, the latter's the
one-element array. -/
theorem parse_single_vs_wrapped_differ :
    parseApiResponse (α := Nat)
        ⟨⟨"0000", "OK"⟩, ⟨some (.single 7), 1, 1, 45⟩⟩ ≠
      parseApiResponse (α := Nat)
        ⟨⟨"0000", "OK"⟩, ⟨some (.arr [7]), 1, 1, 45⟩⟩ := by
  decide

/-- C1 (amended): `parseApiResponse` passes the `items` payload through
unchanged: a single-object `items` stays the bare object (it is *not*
wrapped into an array) and an array passes through as is.  Hence the two
normalizations agree on the success flag and `totalCount` but differ in the
shape of `data` (`single x` vs `arr [x]`). -/
theorem parse_single_object_passthrough (α : Type) (x : α) (msg : String)
    (n p tc : Nat) :
    parseApiResponse (α := α) ⟨⟨"0000", msg⟩, ⟨some (.single x), n, p, tc⟩⟩ =
        .success (.single x) (some tc) ∧
      parseApiResponse (α := α) ⟨⟨"0000", msg⟩, ⟨some (.arr [x]), n, p, tc⟩⟩ =
        .success (.arr [x]) (some tc) :=
  ⟨parseApiResponse_items_passthrough _ _ rfl rfl,
   parseApiResponse_items_passthrough _ _ rfl rfl⟩

/-- C6: on a `"0000"` envelope, an *absent* `items` field yields the generic
"no data" failure, while an explicitly *empty array* `items` yields a
success carrying the empty list (and the body's `totalCount`) — absence of
data is signalled differently from zero results. -/
theorem absent_items_vs_empty_array (α : Type) (msg : String) (n p tc : Nat) :
    parseApiResponse (α := α) ⟨⟨"0000", msg⟩, ⟨none, n, p, tc⟩⟩ =
        .failure "조회된 데이터가 없습니다." none ∧
      parseApiResponse (α := α) ⟨⟨"0000", msg⟩, ⟨some (.arr []), n, p, tc⟩⟩ =
        .success (.arr []) (some tc) :=
  ⟨by unfold parseApiResponse; simp,
   parseApiResponse_items_passthrough _ _ rfl rfl⟩

/-! ## Error classifier (`classifyError`, tour-api.ts)

A raised JS value is modelled by `JsError`: `TypeError` and `SyntaxError` are
`Error` subclasses, `stringVal` a thrown string, `otherVal` any other thrown
value.  `String.prototype.includes` and the regex `/HTTP (\d+)/` are modelled
character-wise. -/

inductive JsError where
  | typeError (message : String)
  | syntaxError (message : String)
  | error (message : String)
  | stringVal (s : String)
  | otherVal
deriving DecidableEq

/-- `e instanceof Error` (TypeError and SyntaxError are subclasses). -/
def JsError.isErrorInst : JsError → Bool
  | .typeError _ | .syntaxError _ | .error _ => true
  | .stringVal _ | .otherVal => false

/-- `e instanceof TypeError`. -/
def JsError.isTypeErrorInst : JsError → Bool
  | .typeError _ => true
  | _ => false

/-- `e instanceof SyntaxError`. -/
def JsError.isSyntaxErrorInst : JsError → Bool
  | .syntaxError _ => true
  | _ => false

/-- `e.message` of an `Error` instance (unused on non-`Error` values). -/
def JsError.message : JsError → String
  | .typeError m | .syntaxError m | .error m => m
  | .stringVal _ | .otherVal => ""

/-- Does `pat` occur at the head of the character list? -/
def startsWithChars : List Char → List Char → Bool
  | [], _ => true
  | _ :: _, [] => false
  | a :: as, b :: bs => a == b && startsWithChars as bs

/-- Does `pat` occur anywhere in the character list?  (Models
`String.prototype.includes`.) -/
def containsChars (pat : List Char) : List Char → Bool
  | [] => pat.isEmpty
  | c :: cs => startsWithChars pat (c :: cs) || containsChars pat cs

/-- `s.includes(pat)`. -/
def strIncludes (s pat : String) : Bool := containsChars pat.toList s.toList

/-- Longest digit run at the head of the character list. -/
def takeDigits : List Char → List Char
  | [] => []
  | c :: cs => if c.isDigit then c :: takeDigits cs else []

/-- Decimal value of a digit run (`parseInt(_, 10)` on digits). -/
def digitsToNat (ds : List Char) : Nat :=
  ds.foldl (fun acc c => acc * 10 + (c.toNat - 48)) 0

/-- First match of the regex `/HTTP (\d+)/`: the decimal value of the first
digit run directly following an occurrence of `"HTTP "`. -/
def findHttpCode : List Char → Option Nat
  | [] => none
  | c :: cs =>
    if startsWithChars "HTTP ".toList (c :: cs) then
      let ds := takeDigits ((c :: cs).drop 5)
      if ds.isEmpty then findHttpCode cs else some (digitsToNat ds)
    else findHttpCode cs

inductive ErrType where
  | network
  | api
  | parse
  | unknown
deriving DecidableEq

/-- The classifier's result `{type, message, statusCode?}`. -/
structure ErrorInfo where
  type : ErrType
  message : String
  statusCode : Option Nat
deriving DecidableEq

/-- The HTTP status → localized message table inside `classifyError`
(`undefined`/unmapped status codes get the generic server-error message). -/
def httpStatusMessage : Option Nat → String
  | some 400 => "잘못된 요청입니다. 입력값을 확인해주세요."
  | some 401 => "인증이 필요합니다. API 키를 확인해주세요."
  | some 403 => "접근이 거부되었습니다. 권한을 확인해주세요."
  | some 404 => "요청한 리소스를 찾을 수 없습니다."
  | some 429 => "요청 횟수가 초과되었습니다. 잠시 후 다시 시도해주세요."
  | some 500 => "서버 내부 오류가 발생했습니다. 잠시 후 다시 시도해주세요."
  | some 503 => "서비스를 일시적으로 사용할 수 없습니다. 잠시 후 다시 시도해주세요."
  | _ => "서버에서 오류가 발생했습니다."

/-- `classifyError` from tour-api.ts, with its four checks in source order. -/
def classifyError (e : JsError) : ErrorInfo :=
  if e.isTypeErrorInst && strIncludes e.message "fetch" then
    ⟨.network, "네트워크 연결에 실패했습니다. 인터넷 연결을 확인해주세요.", none⟩
  else if e.isErrorInst && strIncludes e.message "HTTP" then
    let statusCode := findHttpCode e.message.toList
    ⟨.api, httpStatusMessage statusCode, statusCode⟩
  else if e.isSyntaxErrorInst then
    ⟨.parse, "서버 응답을 처리하는 중 오류가 발생했습니다.", none⟩
  else
    ⟨.unknown,
      match e with
      | .typeError m | .syntaxError m | .error m => m
      | .stringVal s => s
      | .otherVal => "알 수 없는 오류가 발생했습니다.",
      none⟩

/-! ## Resilient fetcher (`fetchWithRetry`, tour-api.ts;
`API_RETRY_CONFIG`, constants/api.ts) -/

structure RetryConfig where
  maxRetries : Nat
  initialDelay : Nat
  maxDelay : Nat

def API_RETRY_CONFIG : RetryConfig := ⟨3, 1000, 10000⟩

/-- `getDelayMs`: exponential backoff capped at `maxDelay`. -/
def getDelayMs (retryCount : Nat) : Nat :=
  min (API_RETRY_CONFIG.initialDelay * 2 ^ retryCount) API_RETRY_CONFIG.maxDelay

/-- A thrown value together with the `errorType` / `statusCode` expando
properties the source attaches with `(error as any).… = …`. -/
structure Thrown where
  val : JsError
  errorType : Option ErrType
  statusCode : Option Nat
deriving DecidableEq

/-- What one `fetch(url)` + `response.json()` round produces:
the fetch itself throws, or an HTTP non-ok response arrives (status and
statusText), or the body fails to parse, or typed data is returned. -/
inductive FetchStep (α : Type) where
  | fetchThrow (e : JsError)
  | httpError (status : Nat) (statusText : String)
  | jsonThrow (e : JsError)
  | success (data : α)

/-- The `try` block of `fetchWithRetry` for one attempt: a non-ok response is
classified and re-thrown as `new Error(errorInfo.message)` with
`statusCode` / `errorType` expandos attached. -/
def tryBody {α : Type} : FetchStep α → Except Thrown α
  | .fetchThrow e => .error ⟨e, none, none⟩
  | .httpError status statusText =>
      let errorInfo :=
        classifyError (.error ("HTTP " ++ toString status ++ ": " ++ statusText))
      .error ⟨.error errorInfo.message, some errorInfo.type, errorInfo.statusCode⟩
  | .jsonThrow e => .error ⟨e, none, none⟩
  | .success a => .ok a

/-- JS truthiness-guarded status test
`errorInfo.statusCode && errorInfo.statusCode >= 500`. -/
def scTruthyGe500 : Option Nat → Bool
  | some n => decide (n ≠ 0) && decide (n ≥ 500)
  | none => false

/-- The `shouldRetry` condition of `fetchWithRetry` (over the classification
of the *caught* error). -/
def shouldRetryCond (info : ErrorInfo) (retryCount : Nat) : Prop :=
  retryCount < API_RETRY_CONFIG.maxRetries ∧
    (info.type = .network ∨ (info.type = .api ∧ scTruthyGe500 info.statusCode = true))

instance (info : ErrorInfo) (retryCount : Nat) :
    Decidable (shouldRetryCond info retryCount) := by
  unfold shouldRetryCond
  infer_instance

/-- `fetchWithRetry` from tour-api.ts, over a fetch oracle.  Returns the
outcome (`ok` data or the finally-thrown annotated error) together with the
list of backoff delays slept before each retry; the number of GET attempts
performed is `delays.length + 1`. -/
def fetchWithRetry {α : Type} (oracle : Nat → FetchStep α) (retryCount : Nat) :
    Except Thrown α × List Nat :=
  match tryBody (oracle retryCount) with
  | .ok data => (.ok data, [])
  | .error t =>
      let errorInfo := classifyError t.val
      if h : shouldRetryCond errorInfo retryCount then
        let delay := getDelayMs retryCount
        let rest := fetchWithRetry oracle (retryCount + 1)
        (rest.1, delay :: rest.2)
      else
        -- `error instanceof Error ? error : new Error(errorInfo.message)`,
        -- then `errorType` is overwritten and `statusCode` set if truthy.
        let finalError : Thrown :=
          if t.val.isErrorInst then t else ⟨.error errorInfo.message, none, none⟩
        (.error
          { finalError with
            errorType := some errorInfo.type,
            statusCode :=
              match errorInfo.statusCode with
              | some n => if n = 0 then finalError.statusCode else some n
              | none => finalError.statusCode },
          [])
termination_by API_RETRY_CONFIG.maxRetries - retryCount
decreasing_by
  have h1 := h.1
  omega

/-- C2 (code bug): a fetch target that persistently fails with HTTP 503 is
**never retried**: `fetchWithRetry` performs exactly one GET attempt (no
backoff delays) and throws.  The `try` block wraps the HTTP failure into
`new Error(<localized message>)`, and the `catch` re-classifies *that* error
— whose message no longer contains `"HTTP"` — as `unknown`, so the
`api && statusCode >= 500` retry branch is unreachable for non-ok responses,
contradicting the documented retry bound of `maxRetries + 1 = 4` attempts
with delays 1000/2000/4000 ms. -/
theorem http503_single_attempt_no_retry :
    fetchWithRetry (α := Unit) (fun _ => .httpError 503 "Service Unavailable") 0 =
        (.error ⟨.error "서비스를 일시적으로 사용할 수 없습니다. 잠시 후 다시 시도해주세요.",
            some .unknown, some 503⟩, []) ∧
      (fetchWithRetry (α := Unit) (fun _ => .httpError 503 "Service Unavailable") 0).2.length + 1 = 1 := by
  have h : fetchWithRetry (α := Unit) (fun _ => .httpError 503 "Service Unavailable") 0 =
      (.error ⟨.error "서비스를 일시적으로 사용할 수 없습니다. 잠시 후 다시 시도해주세요.",
          some .unknown, some 503⟩, []) := by
    rw [fetchWithRetry]
    rfl
  exact ⟨h, by rw [h]; rfl⟩

/-- The delays observed on a persistently failing *network* error follow the
capped exponential backoff: 1000, 2000, 4000 ms, for `maxRetries + 1 = 4`
total GET attempts (retry machinery sanity check; network failures are the
one class the catch block still classifies as retryable). -/
theorem network_failure_backoff_trace :
    (fetchWithRetry (α := Unit) (fun _ => .fetchThrow (.typeError "Failed to fetch")) 0).2 =
        [1000, 2000, 4000] ∧
      (fetchWithRetry (α := Unit) (fun _ => .fetchThrow (.typeError "Failed to fetch")) 0).2.length + 1 = 4 := by
  have h : (fetchWithRetry (α := Unit) (fun _ => .fetchThrow (.typeError "Failed to fetch")) 0).2 =
      [1000, 2000, 4000] := by
    rw [fetchWithRetry, fetchWithRetry, fetchWithRetry, fetchWithRetry]
    decide
  exact ⟨h, by rw [h]; rfl⟩

/-- C3: `fetchWithRetry` retries at a given attempt **iff**
`retryCount < maxRetries` and the caught failure classifies as `network`, or
as `api` with a (truthy) status code ≥ 500; in particular a target always
returning HTTP 404 gets exactly one GET, and failures classified `parse` or
`unknown` are never retried. -/
theorem retry_eligibility :
    (∀ (α : Type) (oracle : Nat → FetchStep α) (rc : Nat) (t : Thrown),
        tryBody (oracle rc) = .error t →
        ((fetchWithRetry oracle rc).2 ≠ [] ↔
          shouldRetryCond (classifyError t.val) rc)) ∧
      (fetchWithRetry (α := Unit) (fun _ => .httpError 404 "Not Found") 0).2.length + 1 = 1 ∧
      (∀ (α : Type) (oracle : Nat → FetchStep α) (rc : Nat) (t : Thrown),
        tryBody (oracle rc) = .error t →
        ((classifyError t.val).type = .parse ∨ (classifyError t.val).type = .unknown) →
        (fetchWithRetry oracle rc).2 = []) := by
  refine ⟨?_, ?_, ?_⟩
  · intro α oracle rc t ht
    rw [fetchWithRetry, ht]
    by_cases h : shouldRetryCond (classifyError t.val) rc
    · simp [h]
    · simp [h]
  · rw [fetchWithRetry]
    decide
  · intro α oracle rc t ht hk
    have hnr : ¬ shouldRetryCond (classifyError t.val) rc := by
      rcases hk with h | h <;> simp [shouldRetryCond, h]
    rw [fetchWithRetry, ht]
    simp [hnr]

/-- Witness for `retry_eligibility`: a concrete network failure at attempt 0
is retried. -/
theorem retry_eligibility_witness :
    (fetchWithRetry (α := Unit) (fun _ => .fetchThrow (.typeError "Failed to fetch")) 0).2 ≠ [] :=
  (retry_eligibility.1 Unit (fun _ => .fetchThrow (.typeError "Failed to fetch")) 0
      ⟨.typeError "Failed to fetch", none, none⟩ rfl).mpr (by decide)

/-! ## Tour API client operations (tour-api.ts)

Each public operation is `try { params; fetchWithRetry; parseApiResponse }
catch (error) { classifyError; return failure }`.  URL building only selects
which upstream endpoint the oracle stands for, so the operations differ only
in their fallback message; `setup` models the parameter-building prelude
(`getCommonParams` can throw when an env var is missing). -/

/-- The `try` block of a public operation: either the prelude throws, or the
fetcher's outcome is propagated, or the envelope is normalized.  The
`Except Thrown` layer is what may escape the `try`. -/
def tourOpTry {α : Type} (setup : Except JsError Unit)
    (oracle : Nat → FetchStep (TourApiResponse α)) :
    Except Thrown (ApiResult (Items α)) :=
  match setup with
  | .error e => .error ⟨e, none, none⟩
  | .ok _ =>
      match (fetchWithRetry oracle 0).1 with
      | .error t => .error t
      | .ok data => .ok (parseApiResponse data)

/-- The `catch` block's message:
`errorInfo.message || "<operation-specific fallback>"`. -/
def tourOpCatchMsg (t : Thrown) (fallback : String) : String :=
  let errorInfo := classifyError t.val
  if errorInfo.message = "" then fallback else errorInfo.message

/-- A whole public operation.  The outer `Except Thrown` layer is its public
boundary: a `.error` value here would be an exception escaping to the
caller. -/
def tourOp {α : Type} (setup : Except JsError Unit)
    (oracle : Nat → FetchStep (TourApiResponse α)) (fallback : String) :
    Except Thrown (ApiResult (Items α)) :=
  match tourOpTry setup oracle with
  | .ok r => .ok r
  | .error t => .ok (.failure (tourOpCatchMsg t fallback) none)

def getAreaCode {α : Type} (setup : Except JsError Unit)
    (oracle : Nat → FetchStep (TourApiResponse α)) :
    Except Thrown (ApiResult (Items α)) :=
  tourOp setup oracle "지역코드 조회 중 오류가 발생했습니다."

def getAreaBasedList {α : Type} (setup : Except JsError Unit)
    (oracle : Nat → FetchStep (TourApiResponse α)) :
    Except Thrown (ApiResult (Items α)) :=
  tourOp setup oracle "관광지 목록 조회 중 오류가 발생했습니다."

def searchKeyword {α : Type} (setup : Except JsError Unit)
    (oracle : Nat → FetchStep (TourApiResponse α)) :
    Except Thrown (ApiResult (Items α)) :=
  tourOp setup oracle "키워드 검색 중 오류가 발생했습니다."

def getDetailCommon {α : Type} (setup : Except JsError Unit)
    (oracle : Nat → FetchStep (TourApiResponse α)) :
    Except Thrown (ApiResult (Items α)) :=
  tourOp setup oracle "관광지 상세 정보 조회 중 오류가 발생했습니다."

def getDetailIntro {α : Type} (setup : Except JsError Unit)
    (oracle : Nat → FetchStep (TourApiResponse α)) :
    Except Thrown (ApiResult (Items α)) :=
  tourOp setup oracle "운영 정보 조회 중 오류가 발생했습니다."

def getDetailImage {α : Type} (setup : Except JsError Unit)
    (oracle : Nat → FetchStep (TourApiResponse α)) :
    Except Thrown (ApiResult (Items α)) :=
  tourOp setup oracle "이미지 목록 조회 중 오류가 발생했습니다."

def getDetailPetTour {α : Type} (setup : Except JsError Unit)
    (oracle : Nat → FetchStep (TourApiResponse α)) :
    Except Thrown (ApiResult (Items α)) :=
  tourOp setup oracle "반려동물 정보 조회 중 오류가 발생했습니다."

/-- Containment shape of `tourOp`: nothing escapes, and a failure result is
either the normalizer's verdict or carries the classifier's message for the
raised error (operation fallback when that message is empty). -/
theorem tourOp_contained {α : Type} (setup : Except JsError Unit)
    (oracle : Nat → FetchStep (TourApiResponse α)) (fallback : String) :
    ∃ r, tourOp setup oracle fallback = .ok r ∧
      ((∃ t, tourOpTry setup oracle = .error t ∧
          r = .failure (tourOpCatchMsg t fallback) none) ∨
        tourOpTry setup oracle = .ok r) := by
  unfold tourOp
  cases h : tourOpTry setup oracle with
  | ok r => exact ⟨r, rfl, Or.inr rfl⟩
  | error t => exact ⟨_, rfl, Or.inl ⟨t, rfl, rfl⟩⟩

/-- C7: every public Tour API client operation, for every prelude outcome and
every fetch behaviour, returns (never throws across its boundary), and any
failure result's message is the classifier's message for the raised failure
(or the operation's fallback when that message is empty) or the
normalizer's result-code-table verdict. -/
theorem public_ops_exception_containment :
    (∀ (α : Type) (setup : Except JsError Unit)
        (oracle : Nat → FetchStep (TourApiResponse α)),
      (∃ r, getAreaCode setup oracle = .ok r ∧
        ((∃ t, tourOpTry setup oracle = .error t ∧
            r = .failure (tourOpCatchMsg t "지역코드 조회 중 오류가 발생했습니다.") none) ∨
          tourOpTry setup oracle = .ok r)) ∧
      (∃ r, getAreaBasedList setup oracle = .ok r ∧
        ((∃ t, tourOpTry setup oracle = .error t ∧
            r = .failure (tourOpCatchMsg t "관광지 목록 조회 중 오류가 발생했습니다.") none) ∨
          tourOpTry setup oracle = .ok r)) ∧
      (∃ r, searchKeyword setup oracle = .ok r ∧
        ((∃ t, tourOpTry setup oracle = .error t ∧
            r = .failure (tourOpCatchMsg t "키워드 검색 중 오류가 발생했습니다.") none) ∨
          tourOpTry setup oracle = .ok r)) ∧
      (∃ r, getDetailCommon setup oracle = .ok r ∧
        ((∃ t, tourOpTry setup oracle = .error t ∧
            r = .failure (tourOpCatchMsg t "관광지 상세 정보 조회 중 오류가 발생했습니다.") none) ∨
          tourOpTry setup oracle = .ok r)) ∧
      (∃ r, getDetailIntro setup oracle = .ok r ∧
        ((∃ t, tourOpTry setup oracle = .error t ∧
            r = .failure (tourOpCatchMsg t "운영 정보 조회 중 오류가 발생했습니다.") none) ∨
          tourOpTry setup oracle = .ok r)) ∧
      (∃ r, getDetailImage setup oracle = .ok r ∧
        ((∃ t, tourOpTry setup oracle = .error t ∧
            r = .failure (tourOpCatchMsg t "이미지 목록 조회 중 오류가 발생했습니다.") none) ∨
          tourOpTry setup oracle = .ok r)) ∧
      (∃ r, getDetailPetTour setup oracle = .ok r ∧
        ((∃ t, tourOpTry setup oracle = .error t ∧
            r = .failure (tourOpCatchMsg t "반려동물 정보 조회 중 오류가 발생했습니다.") none) ∨
          tourOpTry setup oracle = .ok r))) :=
  fun _ setup oracle =>
    ⟨tourOp_contained setup oracle _, tourOp_contained setup oracle _,
     tourOp_contained setup oracle _, tourOp_contained setup oracle _,
     tourOp_contained setup oracle _, tourOp_contained setup oracle _,
     tourOp_contained setup oracle _⟩

/-! ## Stats aggregator (`stats-api.ts`)

`getRegionStats` / `getTypeStats` consume the `ApiResult` of `getAreaCode`
(an array of regions in the normal case) and fan out one
`getAreaBasedList` call per region (per category × region for type stats).
A fanned-out call is abstracted as a `CallOutcome`: either the awaited call
threw, or it returned an `ApiResult` (whose `data` the aggregator never
reads, hence `Unit`; only `success` and `totalCount` are inspected). -/

/-- The two `TourItem` fields the aggregator reads (`area.areacode`,
`area.title`). -/
structure TourItem where
  areacode : String
  title : String
deriving DecidableEq

/-- `RegionStats` from `lib/types/stats.ts`. -/
structure RegionStats where
  areaCode : String
  areaName : String
  count : Nat
deriving DecidableEq

/-- `TypeStats` from `lib/types/stats.ts`. -/
structure TypeStats where
  contentTypeId : Nat
  contentTypeName : String
  count : Nat
deriving DecidableEq

/-- Outcome of one awaited aggregator sub-call. -/
inductive CallOutcome (α : Type) where
  | threw (e : JsError)
  | ret (r : ApiResult α)

/-- `TOUR_CONTENT_TYPES` from constants/tour-types.ts (`Object.keys`
enumerates the numeric-like keys in ascending order). -/
def TOUR_CONTENT_TYPES : List (Nat × String) :=
  [(12, "관광지"), (14, "문화시설"), (15, "축제/행사"), (25, "여행코스"),
   (28, "레포츠"), (32, "숙박"), (38, "쇼핑"), (39, "음식점")]

def TOUR_CONTENT_TYPE_IDS : List Nat := TOUR_CONTENT_TYPES.map Prod.fst

def getContentTypeNameById (id : Nat) : Option String :=
  (TOUR_CONTENT_TYPES.find? (fun p => p.1 = id)).map Prod.snd

/-- Stable descending-by-`count` sort:
`array.sort((a, b) => b.count - a.count)`. -/
def sortCountDesc {α : Type} (count : α → Nat) (l : List α) : List α :=
  l.mergeSort (fun a b => count b ≤ count a)

/-- One branch of the `getRegionStats` fan-out: a `RegionStats` entry when
the listing call returned success *with* a `totalCount`, `null` otherwise
(failure, missing `totalCount`, or a thrown exception). -/
def regionEntry (listing : TourItem → CallOutcome Unit) (area : TourItem) :
    Option RegionStats :=
  match listing area with
  | .threw _ => none
  | .ret r =>
      match r with
      | .success _ (some tc) => some ⟨area.areacode, area.title, tc⟩
      | .success _ none => none
      | .failure _ _ => none

/-- `getRegionStats` from stats-api.ts, over the area-code result and the
per-region listing outcomes.  (The body of the outer `try` cannot throw:
every fanned-out promise already absorbs its own failures.) -/
def getRegionStats (areaCodeResult : ApiResult (List TourItem))
    (listing : TourItem → CallOutcome Unit) : ApiResult (List RegionStats) :=
  match areaCodeResult with
  | .failure e _ =>
      .failure (if e = "" then "지역 코드 조회에 실패했습니다." else e) none
  | .success areaCodes _ =>
      let regionResults := areaCodes.map (regionEntry listing)
      let regionStats := regionResults.filterMap id
      if regionStats.isEmpty then
        .failure "모든 지역의 통계 조회에 실패했습니다." none
      else
        .success (sortCountDesc RegionStats.count regionStats) none

/-- One innermost branch of the `getTypeStats` fan-out: the region's
`totalCount` when the call returned success with one, `0` on every failure
(`return 0` both in the non-success branch and in the `catch`). -/
def typeRegionCount (listing : Nat → TourItem → CallOutcome Unit)
    (typeId : Nat) (area : TourItem) : Nat :=
  match listing typeId area with
  | .threw _ => 0
  | .ret (.success _ (some tc)) => tc
  | .ret (.success _ none) => 0
  | .ret (.failure _ _) => 0

/-- One per-category branch of `getTypeStats`: sums the per-region counts
and labels the category.  The surrounding `catch (… return null)` is dead
code for listing failures — every inner await already returns `0` on
failure — so the branch always produces an entry. -/
def typeEntry (listing : Nat → TourItem → CallOutcome Unit)
    (areaCodes : List TourItem) (typeId : Nat) : Option TypeStats :=
  let regionCounts := areaCodes.map (typeRegionCount listing typeId)
  let totalCount := regionCounts.foldl (fun sum count => sum + count) 0
  let typeName := (getContentTypeNameById typeId).getD ("타입 " ++ toString typeId)
  some ⟨typeId, typeName, totalCount⟩

/-- `getTypeStats` from stats-api.ts. -/
def getTypeStats (areaCodeResult : ApiResult (List TourItem))
    (listing : Nat → TourItem → CallOutcome Unit) : ApiResult (List TypeStats) :=
  match areaCodeResult with
  | .failure e _ =>
      .failure (if e = "" then "지역 코드 조회에 실패했습니다." else e) none
  | .success areaCodes _ =>
      let typeResults := TOUR_CONTENT_TYPE_IDS.map (typeEntry listing areaCodes)
      let typeStats := typeResults.filterMap id
      if typeStats.isEmpty then
        .failure "모든 타입의 통계 조회에 실패했습니다." none
      else
        .success (sortCountDesc TypeStats.count typeStats) none

/-- `StatsSummary` from `lib/types/stats.ts`; `lastUpdated = new Date()` is
modelled by a `now` parameter. -/
structure StatsSummary where
  totalCount : Nat
  topRegions : List RegionStats
  topTypes : List TypeStats
  lastUpdated : Nat
deriving DecidableEq

/-- `getStatsSummary` from stats-api.ts, over the settled results of the two
concurrent sub-aggregations (`Promise.all([getRegionStats(), getTypeStats()])`). -/
def getStatsSummary (now : Nat) (regionResult : ApiResult (List RegionStats))
    (typeResult : ApiResult (List TypeStats)) : ApiResult StatsSummary :=
  match regionResult, typeResult with
  | .failure e _, _ => .failure e none
  | .success _ _, .failure e _ =>
      .failure (if e = "" then "통계 요약 조회에 실패했습니다." else e) none
  | .success regionStats _, .success typeStats _ =>
      let totalCount := typeStats.foldl (fun sum t => sum + t.count) 0
      .success ⟨totalCount, regionStats.take 3, typeStats.take 3, now⟩ none

/-- The surviving entries of the region fan-out, in region-enumeration
order (the `regionResults.filter(result !== null)` step). -/
def surviving (listing : TourItem → CallOutcome Unit)
    (areaCodes : List TourItem) : List RegionStats :=
  (areaCodes.map (regionEntry listing)).filterMap id

/-- Transitivity of the descending-count comparator. -/
theorem countDesc_trans {α : Type} (count : α → Nat) :
    ∀ (a b c : α), (count b ≤ count a : Bool) → (count c ≤ count b : Bool) →
      (count c ≤ count a : Bool) := by
  intro a b c hab hbc
  simp only [decide_eq_true_eq] at *
  omega

/-- Totality of the descending-count comparator. -/
theorem countDesc_total {α : Type} (count : α → Nat) :
    ∀ (a b : α), ((count b ≤ count a : Bool) || (count a ≤ count b : Bool)) := by
  intro a b
  simp only [Bool.or_eq_true, decide_eq_true_eq]
  omega

/-- C4: on a successful area-code fetch, `getRegionStats` succeeds iff at
least one per-region call survives (returns success with a `totalCount`);
its data is the stable descending-by-count sort of the surviving entries in
enumeration order — a permutation of them, sorted descending, with ties kept
in original order — and it fails exactly when every region call failed. -/
theorem region_stats_partial_failure (areaCodes : List TourItem)
    (tc : Option Nat) (listing : TourItem → CallOutcome Unit) :
    (surviving listing areaCodes ≠ [] →
      getRegionStats (.success areaCodes tc) listing =
          .success (sortCountDesc RegionStats.count (surviving listing areaCodes)) none ∧
        (sortCountDesc RegionStats.count (surviving listing areaCodes)).Perm
          (surviving listing areaCodes) ∧
        (sortCountDesc RegionStats.count (surviving listing areaCodes)).Pairwise
          (fun a b => b.count ≤ a.count) ∧
        (∀ a b : RegionStats, [a, b].Sublist (surviving listing areaCodes) →
          b.count ≤ a.count →
          [a, b].Sublist (sortCountDesc RegionStats.count (surviving listing areaCodes)))) ∧
    (surviving listing areaCodes = [] →
      getRegionStats (.success areaCodes tc) listing =
        .failure "모든 지역의 통계 조회에 실패했습니다." none) := by
  constructor
  · intro hne
    refine ⟨?_, List.mergeSort_perm _ _, ?_, ?_⟩
    · unfold getRegionStats
      simp only [List.isEmpty_iff]
      have hne' : List.filterMap id (List.map (regionEntry listing) areaCodes) ≠ [] := hne
      rw [if_neg hne']
      rfl
    · have h := @List.sorted_mergeSort RegionStats
        (fun a b : RegionStats => (b.count ≤ a.count : Bool))
        (countDesc_trans RegionStats.count) (countDesc_total RegionStats.count)
        (surviving listing areaCodes)
      exact h.imp (by intro a b hb; simpa using hb)
    · intro a b hsub hab
      exact List.pair_sublist_mergeSort (countDesc_trans RegionStats.count)
        (countDesc_total RegionStats.count) (by simpa using hab) hsub
  · intro he
    unfold getRegionStats
    simp only [List.isEmpty_iff]
    have he' : List.filterMap id (List.map (regionEntry listing) areaCodes) = [] := he
    rw [if_pos he']

/-- Witness for `region_stats_partial_failure`: two regions, one surviving
call (count 5), one thrown — the aggregate still succeeds with the single
surviving entry. -/
theorem region_stats_partial_failure_witness :
    getRegionStats (.success [⟨"1", "서울"⟩, ⟨"2", "부산"⟩] none)
        (fun a => if a.areacode = "1" then .ret (.success () (some 5)) else .threw .otherVal) =
      .success (sortCountDesc RegionStats.count [⟨"1", "서울", 5⟩]) none :=
  ((region_stats_partial_failure [⟨"1", "서울"⟩, ⟨"2", "부산"⟩] none
      (fun a => if a.areacode = "1" then .ret (.success () (some 5)) else .threw .otherVal)).1
    (by decide)).1

/-- C5 counterexample: with one region whose listing call always throws,
*every* category's inner fan-out fails entirely, yet no category is dropped:
`getTypeStats` succeeds and returns all eight categories with count 0 (ties
kept in enumeration order by the stable sort). -/
theorem type_stats_failed_category_not_dropped :
    getTypeStats (.success [⟨"1", "서울"⟩] none) (fun _ _ => .threw .otherVal) =
      .success [⟨12, "관광지", 0⟩, ⟨14, "문화시설", 0⟩, ⟨15, "축제/행사", 0⟩,
        ⟨25, "여행코스", 0⟩, ⟨28, "레포츠", 0⟩, ⟨32, "숙박", 0⟩, ⟨38, "쇼핑", 0⟩,
        ⟨39, "음식점", 0⟩] none := by
  have h : sortCountDesc TypeStats.count
      [⟨12, "관광지", 0⟩, ⟨14, "문화시설", 0⟩, ⟨15, "축제/행사", 0⟩,
       ⟨25, "여행코스", 0⟩, ⟨28, "레포츠", 0⟩, ⟨32, "숙박", 0⟩, ⟨38, "쇼핑", 0⟩,
       ⟨39, "음식점", 0⟩] =
      [⟨12, "관광지", 0⟩, ⟨14, "문화시설", 0⟩, ⟨15, "축제/행사", 0⟩,
       ⟨25, "여행코스", 0⟩, ⟨28, "레포츠", 0⟩, ⟨32, "숙박", 0⟩, ⟨38, "쇼핑", 0⟩,
       ⟨39, "음식점", 0⟩] :=
    List.mergeSort_of_sorted (by decide)
  show ApiResult.success (sortCountDesc TypeStats.count
      [⟨12, "관광지", 0⟩, ⟨14, "문화시설", 0⟩, ⟨15, "축제/행사", 0⟩,
       ⟨25, "여행코스", 0⟩, ⟨28, "레포츠", 0⟩, ⟨32, "숙박", 0⟩, ⟨38, "쇼핑", 0⟩,
       ⟨39, "음식점", 0⟩]) none = _
  rw [h]

/-- C5 (amended): within a category every failed per-region call (thrown or
returned failure) contributes `0` to the sum, and — unlike the region-stats
drop policy — a category whose inner fan-out entirely fails is *not*
dropped: on a successful area fetch `getTypeStats` always succeeds with
exactly one entry per category (count = sum of surviving per-region
counts), the failed-category entries simply carrying count 0. -/
theorem type_stats_fail_soft (areaCodes : List TourItem) (tc : Option Nat)
    (listing : Nat → TourItem → CallOutcome Unit) :
    (∀ typeId area e, listing typeId area = .threw e →
        typeRegionCount listing typeId area = 0) ∧
    (∀ typeId area em c, listing typeId area = .ret (.failure em c) →
        typeRegionCount listing typeId area = 0) ∧
    getTypeStats (.success areaCodes tc) listing =
      .success (sortCountDesc TypeStats.count (TOUR_CONTENT_TYPE_IDS.map (fun typeId =>
        ⟨typeId, (getContentTypeNameById typeId).getD ("타입 " ++ toString typeId),
         (areaCodes.map (typeRegionCount listing typeId)).foldl
           (fun sum count => sum + count) 0⟩))) none ∧
    (∀ typeId, typeId ∈ TOUR_CONTENT_TYPE_IDS →
      (⟨typeId, (getContentTypeNameById typeId).getD ("타입 " ++ toString typeId),
        (areaCodes.map (typeRegionCount listing typeId)).foldl
          (fun sum count => sum + count) 0⟩ : TypeStats) ∈
        sortCountDesc TypeStats.count (TOUR_CONTENT_TYPE_IDS.map (fun typeId =>
          ⟨typeId, (getContentTypeNameById typeId).getD ("타입 " ++ toString typeId),
           (areaCodes.map (typeRegionCount listing typeId)).foldl
             (fun sum count => sum + count) 0⟩))) := by
  refine ⟨?_, ?_, ?_, ?_⟩
  · intro typeId area e h
    unfold typeRegionCount
    rw [h]
  · intro typeId area em c h
    unfold typeRegionCount
    rw [h]
  · rfl
  · intro typeId hmem
    unfold sortCountDesc
    rw [List.mem_mergeSort]
    exact List.mem_map_of_mem _ hmem

/-- Witness for `type_stats_fail_soft`: a thrown listing call contributes 0. -/
theorem type_stats_fail_soft_witness :
    typeRegionCount (fun _ _ => .threw .otherVal) 12 ⟨"1", "서울"⟩ = 0 :=
  (type_stats_fail_soft [⟨"1", "서울"⟩] none (fun _ _ => .threw .otherVal)).1
    12 ⟨"1", "서울"⟩ .otherVal rfl

/-- C10: a listing call that returns success *without* a `totalCount` is
dropped from `getRegionStats` exactly like a failed call (no zero-count
entry; a lone such region even trips the all-failed failure), whereas in
`getTypeStats` the same outcome contributes 0 to the category sum (each
category entry remains, with count 0). -/
theorem missing_totalcount_asymmetry :
    (∀ (listing : TourItem → CallOutcome Unit) (area : TourItem),
        listing area = .ret (.success () none) →
        regionEntry listing area = none) ∧
    (∀ (listing : Nat → TourItem → CallOutcome Unit) (typeId : Nat)
        (area : TourItem),
        listing typeId area = .ret (.success () none) →
        typeRegionCount listing typeId area = 0) ∧
    getRegionStats (.success [⟨"1", "서울"⟩] none) (fun _ => .ret (.success () none)) =
      .failure "모든 지역의 통계 조회에 실패했습니다." none ∧
    getTypeStats (.success [⟨"1", "서울"⟩] none) (fun _ _ => .ret (.success () none)) =
      .success [⟨12, "관광지", 0⟩, ⟨14, "문화시설", 0⟩, ⟨15, "축제/행사", 0⟩,
        ⟨25, "여행코스", 0⟩, ⟨28, "레포츠", 0⟩, ⟨32, "숙박", 0⟩, ⟨38, "쇼핑", 0⟩,
        ⟨39, "음식점", 0⟩] none := by
  refine ⟨?_, ?_, rfl, ?_⟩
  · intro listing area h
    unfold regionEntry
    rw [h]
  · intro listing typeId area h
    unfold typeRegionCount
    rw [h]
  · have h : sortCountDesc TypeStats.count
        [⟨12, "관광지", 0⟩, ⟨14, "문화시설", 0⟩, ⟨15, "축제/행사", 0⟩,
         ⟨25, "여행코스", 0⟩, ⟨28, "레포츠", 0⟩, ⟨32, "숙박", 0⟩, ⟨38, "쇼핑", 0⟩,
         ⟨39, "음식점", 0⟩] =
        [⟨12, "관광지", 0⟩, ⟨14, "문화시설", 0⟩, ⟨15, "축제/행사", 0⟩,
         ⟨25, "여행코스", 0⟩, ⟨28, "레포츠", 0⟩, ⟨32, "숙박", 0⟩, ⟨38, "쇼핑", 0⟩,
         ⟨39, "음식점", 0⟩] :=
      List.mergeSort_of_sorted (by decide)
    show ApiResult.success (sortCountDesc TypeStats.count
        [⟨12, "관광지", 0⟩, ⟨14, "문화시설", 0⟩, ⟨15, "축제/행사", 0⟩,
         ⟨25, "여행코스", 0⟩, ⟨28, "레포츠", 0⟩, ⟨32, "숙박", 0⟩, ⟨38, "쇼핑", 0⟩,
         ⟨39, "음식점", 0⟩]) none = _
    rw [h]

/-- Witness for `missing_totalcount_asymmetry`: evaluating its two guarded
conjuncts at a concrete region. -/
theorem missing_totalcount_asymmetry_witness :
    regionEntry (fun _ => .ret (.success () none)) ⟨"1", "서울"⟩ = none ∧
      typeRegionCount (fun _ _ => .ret (.success () none)) 12 ⟨"1", "서울"⟩ = 0 :=
  ⟨missing_totalcount_asymmetry.1 (fun _ => .ret (.success () none)) ⟨"1", "서울"⟩ rfl,
   missing_totalcount_asymmetry.2.1 (fun _ _ => .ret (.success () none)) 12
     ⟨"1", "서울"⟩ rfl⟩

/-- C8: `getStatsSummary` fails iff the region aggregation or the type
aggregation failed; on success its `totalCount` is the fold-sum of the
per-category counts, and `topRegions` / `topTypes` are the first three
entries of the (already descending-sorted) region and type statistics. -/
theorem stats_summary_composition :
    (∀ (now : Nat) (r : ApiResult (List RegionStats))
        (t : ApiResult (List TypeStats)),
      ((∃ e c, getStatsSummary now r t = .failure e c) ↔
        ((∃ e c, r = .failure e c) ∨ (∃ e c, t = .failure e c)))) ∧
    (∀ (now : Nat) (rs : List RegionStats) (nr : Option Nat)
        (ts : List TypeStats) (nt : Option Nat),
      getStatsSummary now (.success rs nr) (.success ts nt) =
        .success ⟨ts.foldl (fun sum t => sum + t.count) 0, rs.take 3, ts.take 3, now⟩
          none) := by
  constructor
  · intro now r t
    cases r with
    | failure e c => simp [getStatsSummary]
    | success rs nr =>
      cases t with
      | failure e c => simp [getStatsSummary]
      | success ts nt => simp [getStatsSummary]
  · intro now rs nr ts nt
    rfl

/-! ## Coordinate converter (`katecToWgs84`, lib/utils/coordinates.ts)

Coordinate values are exact rationals.  `parseFloat` is modelled on the
grammar the upstream encoding uses (an optional sign, a digit run and an
optional decimal fraction); any string without a leading numeric prefix
parses to `NaN`, i.e. `none`. -/

/-- `parseFloat` on the inputs the coordinate contract covers: leading
optional `-`, digits, optional `.` + digits; `none` models `NaN`. -/
def parseFloatQ (s : String) : Option Rat :=
  let cs := s.toList
  let signAndRest : Bool × List Char :=
    match cs with
    | '-' :: rest => (true, rest)
    | _ => (false, cs)
  let ds := takeDigits signAndRest.2
  if ds.isEmpty then none
  else
    let intPart : Rat := (digitsToNat ds : Nat)
    let v : Rat :=
      match signAndRest.2.drop ds.length with
      | '.' :: rest2 =>
          let fs := takeDigits rest2
          intPart + (digitsToNat fs : Nat) / ((10 : Rat) ^ fs.length)
      | _ => intPart
    some (if signAndRest.1 then -v else v)

/-- The `string | number` input union of `katecToWgs84` (a JS number may
itself be `NaN`, hence `Option Rat`). -/
inductive CoordInput where
  | str (s : String)
  | num (v : Option Rat)

/-- `typeof mapx === "string" ? parseFloat(mapx) : mapx`. -/
def CoordInput.toNumber : CoordInput → Option Rat
  | .str s => parseFloatQ s
  | .num v => v

/-- String interpolation `${input}` for the error message. -/
def CoordInput.render : CoordInput → String
  | .str s => s
  | .num (some q) => toString q
  | .num none => "NaN"

structure Coordinates where
  lng : Rat
  lat : Rat
deriving DecidableEq

/-- `katecToWgs84` from lib/utils/coordinates.ts: parse both inputs, throw
on `NaN`, else divide each by 10^7. -/
def katecToWgs84 (mapx mapy : CoordInput) : Except String Coordinates :=
  match mapx.toNumber, mapy.toNumber with
  | some x, some y => .ok ⟨x / 10000000, y / 10000000⟩
  | _, _ =>
      .error ("유효하지 않은 좌표입니다. mapx: " ++ mapx.render ++ ", mapy: " ++ mapy.render)

/-- C9: for every pair of inputs that parse to numbers, `katecToWgs84`
returns those numbers divided by 10^7 as longitude and latitude; it throws
exactly when an input parses to `NaN`; concretely,
`katecToWgs84("1270000000", "370000000") = {lng: 127, lat: 37}` and
`katecToWgs84("abc", "0")` throws.  (As a pure function of its inputs it is
deterministic by construction.) -/
theorem katec_to_wgs84_conversion :
    (∀ (a b : CoordInput) (x y : Rat), a.toNumber = some x → b.toNumber = some y →
        katecToWgs84 a b = .ok ⟨x / 10000000, y / 10000000⟩) ∧
      (∀ (a b : CoordInput), (a.toNumber = none ∨ b.toNumber = none) →
        katecToWgs84 a b =
          .error ("유효하지 않은 좌표입니다. mapx: " ++ a.render ++ ", mapy: " ++ b.render)) ∧
      katecToWgs84 (.str "1270000000") (.str "370000000") = .ok ⟨127, 37⟩ ∧
      (∃ m, katecToWgs84 (.str "abc") (.str "0") = .error m) := by
  refine ⟨?_, ?_, ?_, ?_⟩
  · intro a b x y hx hy
    unfold katecToWgs84
    rw [hx, hy]
  · intro a b h
    unfold katecToWgs84
    rcases h with h | h
    · rw [h]
    · rw [h]
      cases a.toNumber <;> rfl
  · have hx : (CoordInput.str "1270000000").toNumber = some ((1270000000 : Nat) : Rat) := by
      decide
    have hy : (CoordInput.str "370000000").toNumber = some ((370000000 : Nat) : Rat) := by
      decide
    unfold katecToWgs84
    rw [hx, hy]
    have h1 : ((1270000000 : Nat) : Rat) / 10000000 = 127 := by norm_num
    have h2 : ((370000000 : Nat) : Rat) / 10000000 = 37 := by norm_num
    show Except.ok
        (⟨((1270000000 : Nat) : Rat) / 10000000, ((370000000 : Nat) : Rat) / 10000000⟩ :
          Coordinates) =
      Except.ok (⟨127, 37⟩ : Coordinates)
    rw [h1, h2]
  · exact ⟨_, rfl⟩

/-- Witness for `katec_to_wgs84_conversion`: its universally quantified
conversion clause applied at the concrete KATEC-encoded inputs. -/
theorem katec_to_wgs84_conversion_witness :
    katecToWgs84 (.str "1270000000") (.str "370000000") =
      .ok ⟨(1270000000 : Nat) / (10000000 : Rat), (370000000 : Nat) / (10000000 : Rat)⟩ :=
  katec_to_wgs84_conversion.1 (.str "1270000000") (.str "370000000") _ _
    (by decide) (by decide)

end TourApi



